import Mathlib

/-!
Shallow embedding of the session/token lifecycle and friend-relationship
state-synchronization layer of `src/ts-app/src/App.tsx`.

The embedded parts are:
- the envelope type `ApiResponse` (App.tsx:35-38), refined at runtime into
  `Envelope` (status tag plus the two views the code takes of `data`);
- the Remote Client `apiCall` / `authenticatedApiCall` (App.tsx:93-112);
- the Session Store: `login` / `logout` (App.tsx:63-73) and the mount-time
  restore effect (App.tsx:54-61), with `sessionStorage` modelled as the
  optional value stored under the single key `authToken`;
- the Relationship State Controller operations `loadFriends`,
  `removeFriend` (App.tsx:366-395) and `loadRequests`, `sendFriendRequest`,
  `acceptRequest`, `declineRequest` (App.tsx:464-537).

Each controller operation is a pure state transition: it receives the
resolved transport outcome of its single remote call as an argument (the
code awaits exactly one call per operation), the component state before the
call, and returns the component state afterwards together with the list of
toast messages emitted (`message.success` / `message.error`) and a flag
recording whether the remote call was issued at all (false exactly on the
`if (!token) return;` guard path). All operations are total Lean
functions: an exception escaping an operation is not representable, which
mirrors the try/catch wrapping every remote call in the source.
-/

namespace RequestSystemFront

/-- The `status` tag of `ApiResponse` (App.tsx:36). -/
inductive Status where
  | SUCCESS
  | FAILURE
deriving DecidableEq, Repr

/-- `ApiResponse<T> = { status, data }` (App.tsx:35-38), with `data`
carried as an arbitrary value of type `α`. -/
structure ApiResponse (α : Type) where
  status : Status
  data : α
deriving DecidableEq, Repr

/-- Runtime refinement of a parsed `ApiResponse` body as the controller
reads it: when `status` is SUCCESS the code reads `data` as the typed
payload (`response.data || []`, so possibly null/undefined — `Option`);
when `status` is FAILURE it reads `data` as diagnostic text
(`response.data || generic`, `String(response.data)`), again possibly
absent. -/
inductive Envelope (α : Type) where
  | success (data : Option α)
  | failure (data : Option String)
deriving DecidableEq, Repr

/-- The `status` field of the refined body. -/
def Envelope.status : Envelope α → Status
  | .success _ => Status.SUCCESS
  | .failure _ => Status.FAILURE

/-- The transport-level result of `fetch` plus `response.json()`
(App.tsx:94-101): either the promise rejects (network unreachable or
malformed response body) or a body is parsed. -/
inductive Transport (α : Type) where
  | throws
  | responds (body : Envelope α)
deriving DecidableEq, Repr

/-- True exactly when the transport resolved with a body whose status is
SUCCESS — the condition of every `if (response.status === 'SUCCESS')`
branch in the controller. -/
def Transport.isSuccessEnvelope : Transport α → Bool
  | .responds (.success _) => true
  | _ => false

/-- `apiCall` (App.tsx:93-102): awaits `fetch` and `response.json()` and
returns the parsed body. The function body contains no try/catch, so a
transport-level rejection propagates to the caller; `Except.error ()` is
that propagated rejection. -/
def apiCall : Transport α → Except Unit (Envelope α)
  | .throws => Except.error ()
  | .responds body => Except.ok body

/-- `authenticatedApiCall` (App.tsx:104-112): delegates to `apiCall`,
additionally attaching the `Authorization: Bearer <token>` header, which
has no observable effect on the local state modelled here. -/
def authenticatedApiCall (_token : String) (t : Transport α) : Except Unit (Envelope α) :=
  apiCall t

/-- JavaScript `x ? String(x) : fallback` / `x || fallback` on a
string-or-absent value: an absent or empty string is falsy. Used by the
FAILURE branches of `loadRequests`, `sendFriendRequest`, `acceptRequest`,
`declineRequest` (App.tsx:473,494,514,532). -/
def jsTextOr (d : Option String) (fallback : String) : String :=
  match d with
  | some s => if s = "" then fallback else s
  | none => fallback

/-! ## Session Store (AuthProvider, App.tsx:50-80) -/

/-- The AuthProvider state: `token` (`string | null`) and `isLoggedIn`. -/
structure AuthState where
  token : Option String
  isLoggedIn : Bool
deriving DecidableEq, Repr

/-- `sessionStorage` restricted to the single key `authToken`:
`getItem` yields `null` (`none`) when the key is absent. -/
abbrev SessionStorage := Option String

/-- A fresh AuthProvider instance before its mount effect runs:
`useState<string | null>(null)` and `useState(false)` (App.tsx:51-52). -/
def AuthState.init : AuthState := ⟨none, false⟩

/-- `login` (App.tsx:63-67): sets the token, marks the session logged in,
and writes the token to `sessionStorage` under `authToken`. The result is
the new state paired with the new storage contents; the previous values
are overwritten unconditionally. -/
def login (newToken : String) : AuthState × SessionStorage :=
  (⟨some newToken, true⟩, some newToken)

/-- `logout` (App.tsx:69-73): clears the token, marks the session logged
out, and removes the persisted key. -/
def logout : AuthState × SessionStorage :=
  (⟨none, false⟩, none)

/-- The mount effect of AuthProvider (App.tsx:54-61), the spec's
`restore()`: reads `sessionStorage.getItem('authToken')` and, when the
result is truthy (non-null and non-empty — JavaScript string truthiness),
installs it as the token and marks the session logged in; otherwise the
state is left as it was. -/
def restore (st : AuthState) (store : SessionStorage) : AuthState :=
  match store with
  | some savedToken => if savedToken = "" then st else ⟨some savedToken, true⟩
  | none => st

/-- The spec's Session invariant, as a Boolean of the state: whether the
token is present and non-empty. -/
def tokenPresentNonEmpty (st : AuthState) : Bool :=
  match st.token with
  | some t => t ≠ ""
  | none => false

/-! ## Relationship State Controller -/

/-- `Friend` (App.tsx:352-355): `username` plus optional `email`. -/
structure Friend where
  username : String
  email : Option String
deriving DecidableEq, Repr

/-- `FriendRequest` (App.tsx:448-451): the sender's username. -/
structure FriendRequest where
  senderName : String
deriving DecidableEq, Repr

/-- A toast emitted through `message.success` / `message.error`. -/
inductive Msg where
  | success (text : String)
  | error (text : String)
deriving DecidableEq, Repr

/-- Whether a toast is an error toast. -/
def Msg.isError : Msg → Bool
  | .error _ => true
  | .success _ => false

/-- The outcome of one controller operation: the component state after the
operation, the toasts emitted during it (in order), and whether the remote
call was issued (false exactly when the `if (!token) return;` guard fired
before any request). -/
structure OpResult (σ : Type) where
  state : σ
  messages : List Msg
  requestIssued : Bool
deriving DecidableEq, Repr

/-- FriendsPanel local state (App.tsx:358-359): the `friends` list and the
`loading` flag. -/
structure FriendsPanelState where
  friends : List Friend
  loading : Bool
deriving DecidableEq, Repr

/-- `loadFriends` (App.tsx:366-379). Guard: `if (!token) return;` (null or
empty token skips everything). On a parsed SUCCESS body:
`setFriends(response.data || [])`. On a parsed FAILURE body: nothing (the
function has no else branch). On a thrown transport error:
`message.error('Помилка завантаження друзів')`. `finally` always clears
`loading` once the call was attempted. -/
def loadFriends (token : Option String) (t : Transport (List Friend))
    (s : FriendsPanelState) : OpResult FriendsPanelState :=
  match token with
  | none => ⟨s, [], false⟩
  | some tok =>
    if tok = "" then ⟨s, [], false⟩
    else
      match authenticatedApiCall tok t with
      | .error _ => ⟨{ s with loading := false }, [Msg.error "Помилка завантаження друзів"], true⟩
      | .ok (.success data) => ⟨⟨data.getD [], false⟩, [], true⟩
      | .ok (.failure _) => ⟨{ s with loading := false }, [], true⟩

/-- `removeFriend` (App.tsx:381-395). Guard: `if (!token) return;`. On a
parsed SUCCESS body: `setFriends(prev => prev.filter(f => f.username !==
friendId))` and a success toast. On a parsed FAILURE body: nothing (no
else branch). On a thrown transport error: an error toast. -/
def removeFriend (token : Option String) (friendId : String) (t : Transport Unit)
    (s : FriendsPanelState) : OpResult FriendsPanelState :=
  match token with
  | none => ⟨s, [], false⟩
  | some tok =>
    if tok = "" then ⟨s, [], false⟩
    else
      match authenticatedApiCall tok t with
      | .error _ => ⟨s, [Msg.error "Помилка видалення друга"], true⟩
      | .ok (.success _) =>
        ⟨{ s with friends := s.friends.filter (fun f => f.username ≠ friendId) },
          [Msg.success "Друга видалено"], true⟩
      | .ok (.failure _) => ⟨s, [], true⟩

/-- FriendRequestsPanel local state (App.tsx:454-457): the incoming
`requests` list, the `loading` and `sendingRequest` flags, and the
username field of the send form (`none` once `form.resetFields()` ran). -/
structure RequestsPanelState where
  requests : List FriendRequest
  loading : Bool
  sendingRequest : Bool
  formUsername : Option String
deriving DecidableEq, Repr

/-- `loadRequests` (App.tsx:464-480). Guard: `if (!token) return;`. On a
parsed SUCCESS body: `setRequests(response.data as FriendRequest[] || [])`.
On a parsed FAILURE body: `message.error(response.data ?
String(response.data) : 'Помилка завантаження запитів')`. On a thrown
transport error: the same generic error toast. `finally` clears
`loading`. -/
def loadRequests (token : Option String) (t : Transport (List FriendRequest))
    (s : RequestsPanelState) : OpResult RequestsPanelState :=
  match token with
  | none => ⟨s, [], false⟩
  | some tok =>
    if tok = "" then ⟨s, [], false⟩
    else
      match authenticatedApiCall tok t with
      | .error _ =>
        ⟨{ s with loading := false }, [Msg.error "Помилка завантаження запитів"], true⟩
      | .ok (.success data) => ⟨{ s with requests := data.getD [], loading := false }, [], true⟩
      | .ok (.failure d) =>
        ⟨{ s with loading := false },
          [Msg.error (jsTextOr d "Помилка завантаження запитів")], true⟩

/-- `sendFriendRequest` (App.tsx:482-501). Guard: `if (!token) return;`.
On a parsed SUCCESS body: `form.resetFields()` and a success toast — no
list is touched. On a parsed FAILURE body: `message.error(response.data ||
'Помилка надсилання запиту')`. On a thrown transport error: the generic
error toast. `finally` clears `sendingRequest` (set just before the
call). -/
def sendFriendRequest (token : Option String) (_username : String) (t : Transport String)
    (s : RequestsPanelState) : OpResult RequestsPanelState :=
  match token with
  | none => ⟨s, [], false⟩
  | some tok =>
    if tok = "" then ⟨s, [], false⟩
    else
      match authenticatedApiCall tok t with
      | .error _ =>
        ⟨{ s with sendingRequest := false }, [Msg.error "Помилка надсилання запиту"], true⟩
      | .ok (.success _) =>
        ⟨{ s with sendingRequest := false, formUsername := none },
          [Msg.success "Запит надіслано"], true⟩
      | .ok (.failure d) =>
        ⟨{ s with sendingRequest := false },
          [Msg.error (jsTextOr d "Помилка надсилання запиту")], true⟩

/-- `acceptRequest` (App.tsx:503-519). Guard: `if (!token) return;`. On a
parsed SUCCESS body: `setRequests(prev => prev.filter(r => r.senderName
!== sender))` and a success toast. On a parsed FAILURE body:
`message.error(response.data ? String(response.data) : 'Помилка прийняття
запиту')`. On a thrown transport error: the generic error toast. -/
def acceptRequest (token : Option String) (sender : String) (t : Transport Unit)
    (s : RequestsPanelState) : OpResult RequestsPanelState :=
  match token with
  | none => ⟨s, [], false⟩
  | some tok =>
    if tok = "" then ⟨s, [], false⟩
    else
      match authenticatedApiCall tok t with
      | .error _ => ⟨s, [Msg.error "Помилка прийняття запиту"], true⟩
      | .ok (.success _) =>
        ⟨{ s with requests := s.requests.filter (fun r => r.senderName ≠ sender) },
          [Msg.success "Запит прийнято"], true⟩
      | .ok (.failure d) => ⟨s, [Msg.error (jsTextOr d "Помилка прийняття запиту")], true⟩

/-- `declineRequest` (App.tsx:521-537). Identical shape to
`acceptRequest` with the decline endpoint and its own toast texts. -/
def declineRequest (token : Option String) (sender : String) (t : Transport Unit)
    (s : RequestsPanelState) : OpResult RequestsPanelState :=
  match token with
  | none => ⟨s, [], false⟩
  | some tok =>
    if tok = "" then ⟨s, [], false⟩
    else
      match authenticatedApiCall tok t with
      | .error _ => ⟨s, [Msg.error "Помилка відхилення запиту"], true⟩
      | .ok (.success _) =>
        ⟨{ s with requests := s.requests.filter (fun r => r.senderName ≠ sender) },
          [Msg.success "Запит відхилено"], true⟩
      | .ok (.failure d) => ⟨s, [Msg.error (jsTextOr d "Помилка відхилення запиту")], true⟩

/-- Modelled from the spec: the spec's local de-duplication keyed by
identifier ("Friend and FriendRequest sets are keyed by identifier ...
de-duplication on reconciliation", "friends == dedupe(P)"): keep the
first entry for each username. Used only to compare the spec's claimed
reconciliation against the one the source performs. -/
def dedupeByUsername (l : List Friend) : List Friend :=
  l.foldl (fun acc f =>
    if acc.any (fun g => g.username = f.username) then acc else acc ++ [f]) []

/-! ## Shared concrete sample values (used by counterexamples and
witnesses) -/

/-- A sample friend entry. -/
def fAnna : Friend := ⟨"anna", none⟩

/-- A second sample friend entry with a distinct username. -/
def fDave : Friend := ⟨"dave", some "dave@mail"⟩

/-- A sample incoming request. -/
def rCarol : FriendRequest := ⟨"carol"⟩

/-- A sample FriendsPanel state. -/
def sampleFriendsState : FriendsPanelState := ⟨[fDave], true⟩

/-- A sample FriendRequestsPanel state. -/
def sampleRequestsState : RequestsPanelState := ⟨[rCarol], true, false, some "bob"⟩

/-! ## Theorems -/

/-- C1 counterexample: at the concrete transport-failure input, `apiCall`
does not return any envelope (in particular none with status FAILURE); it
propagates the raw rejection to its caller (`Except.error ()`), refuting
the claim that every transport-level failure yields a FAILURE envelope
from the call itself. -/
theorem apiCall_transport_failure_propagates :
    apiCall (Transport.throws : Transport Unit) = Except.error () ∧
    ¬ ∃ body : Envelope Unit,
        apiCall (Transport.throws : Transport Unit) = Except.ok body ∧
        body.status = Status.FAILURE := by
  refine ⟨rfl, ?_⟩
  rintro ⟨body, hbody, -⟩
  simp [apiCall] at hbody

/-- C1 amended: a transport-level failure makes `apiCall` reject, and the
rejection is caught by each calling operation at the operation boundary
(the try/catch inside the operation): the local collection is unchanged
and an error toast is displayed, so no raw exception escapes any
operation (every operation is a total function of the resolved
outcome). -/
theorem transport_failure_caught_at_operation_boundary
    (tok : String) (h : tok ≠ "") (u a dn : String)
    (sF : FriendsPanelState) (sR : RequestsPanelState) :
    apiCall (Transport.throws : Transport Unit) = Except.error () ∧
    (loadFriends (some tok) Transport.throws sF).state.friends = sF.friends ∧
    (loadFriends (some tok) Transport.throws sF).messages
      = [Msg.error "Помилка завантаження друзів"] ∧
    (removeFriend (some tok) u Transport.throws sF).state = sF ∧
    (removeFriend (some tok) u Transport.throws sF).messages
      = [Msg.error "Помилка видалення друга"] ∧
    (loadRequests (some tok) Transport.throws sR).state.requests = sR.requests ∧
    (loadRequests (some tok) Transport.throws sR).messages
      = [Msg.error "Помилка завантаження запитів"] ∧
    (sendFriendRequest (some tok) u Transport.throws sR).state.requests = sR.requests ∧
    (sendFriendRequest (some tok) u Transport.throws sR).messages
      = [Msg.error "Помилка надсилання запиту"] ∧
    (acceptRequest (some tok) a Transport.throws sR).state = sR ∧
    (acceptRequest (some tok) a Transport.throws sR).messages
      = [Msg.error "Помилка прийняття запиту"] ∧
    (declineRequest (some tok) dn Transport.throws sR).state = sR ∧
    (declineRequest (some tok) dn Transport.throws sR).messages
      = [Msg.error "Помилка відхилення запиту"] := by
  simp [loadFriends, removeFriend, loadRequests, sendFriendRequest, acceptRequest,
    declineRequest, authenticatedApiCall, apiCall, h]

/-- C1 amended, witness at a concrete input. -/
theorem transport_failure_caught_witness :
    (loadFriends (some "tok") Transport.throws sampleFriendsState).state.friends
      = sampleFriendsState.friends ∧
    (acceptRequest (some "tok") "carol" Transport.throws sampleRequestsState).state
      = sampleRequestsState := by
  have h := transport_failure_caught_at_operation_boundary "tok" (by decide)
    "bob" "carol" "carol" sampleFriendsState sampleRequestsState
  exact ⟨h.2.1, h.2.2.2.2.2.2.2.2.2.1⟩

/-- C2 counterexample: a SUCCESS payload containing a duplicate username
is installed verbatim by `loadFriends`; the resulting `friends` list is
not the de-duplicated payload, refuting `friends == dedupe(P)`. -/
theorem loadFriends_does_not_dedupe :
    (loadFriends (some "tok")
        (Transport.responds (Envelope.success (some [fAnna, fAnna])))
        sampleFriendsState).state.friends
      ≠ dedupeByUsername [fAnna, fAnna] := by
  decide

/-- C2 amended: on a SUCCESS envelope, `loadFriends` (resp. `loadRequests`)
fully replaces the collection with exactly the delivered payload — no
merge with prior content and no de-duplication — and an absent payload
yields the empty collection. -/
theorem load_replaces_with_exact_payload
    (tok : String) (h : tok ≠ "") (P : Option (List Friend))
    (Q : Option (List FriendRequest)) (sF : FriendsPanelState) (sR : RequestsPanelState) :
    (loadFriends (some tok) (Transport.responds (Envelope.success P)) sF).state.friends
      = P.getD [] ∧
    (loadRequests (some tok) (Transport.responds (Envelope.success Q)) sR).state.requests
      = Q.getD [] ∧
    (loadFriends (some tok) (Transport.responds (Envelope.success none)) sF).state.friends
      = [] ∧
    (loadRequests (some tok) (Transport.responds (Envelope.success none)) sR).state.requests
      = [] := by
  simp [loadFriends, loadRequests, authenticatedApiCall, apiCall, h]

/-- C2 amended, witness at a concrete input. -/
theorem load_replaces_witness :
    (loadFriends (some "tok")
        (Transport.responds (Envelope.success (some [fAnna, fAnna])))
        sampleFriendsState).state.friends = [fAnna, fAnna] ∧
    (loadRequests (some "tok")
        (Transport.responds (Envelope.success none))
        sampleRequestsState).state.requests = [] := by
  have h := load_replaces_with_exact_payload "tok" (by decide)
    (some [fAnna, fAnna]) none sampleFriendsState sampleRequestsState
  exact ⟨h.1, h.2.2.2⟩

/-- C3 counterexample: `login ""` marks the session logged in while the
stored token is present but empty, so `isLoggedIn` does not agree with
"token present and non-empty" after that operation. -/
theorem login_empty_token_breaks_invariant :
    (login "").1.isLoggedIn = true ∧ tokenPresentNonEmpty (login "").1 = false := by
  decide

/-- C3 amended: the invariant `isLoggedIn == (token present and
non-empty)` holds after `logout`, after `login t` for every non-empty
`t`, and is preserved by `restore` from any state and storage in which it
already holds; `login ""` is the sole violating operation (it sets
`isLoggedIn` with an empty stored token). -/
theorem session_invariant_after_operations
    (t : String) (h : t ≠ "") (st : AuthState) (store : SessionStorage) :
    (login t).1.isLoggedIn = tokenPresentNonEmpty (login t).1 ∧
    logout.1.isLoggedIn = tokenPresentNonEmpty logout.1 ∧
    (st.isLoggedIn = tokenPresentNonEmpty st →
      (restore st store).isLoggedIn = tokenPresentNonEmpty (restore st store)) := by
  refine ⟨by simp [login, tokenPresentNonEmpty, h], by simp [logout, tokenPresentNonEmpty], ?_⟩
  intro hst
  match store with
  | none => simpa [restore] using hst
  | some s =>
    by_cases hs : s = ""
    · simpa [restore, hs] using hst
    · simp [restore, hs, tokenPresentNonEmpty]

/-- C3 amended, witness at a concrete input. -/
theorem session_invariant_witness :
    (login "abc123").1.isLoggedIn = tokenPresentNonEmpty (login "abc123").1 ∧
    (restore AuthState.init (some "abc123")).isLoggedIn
      = tokenPresentNonEmpty (restore AuthState.init (some "abc123")) := by
  have h := session_invariant_after_operations "abc123" (by decide)
    AuthState.init (some "abc123")
  exact ⟨h.1, h.2.2 (by decide)⟩

/-- C4 counterexample: on a FAILURE envelope, `loadFriends` and
`removeFriend` emit no toast at all (their SUCCESS branch has no `else`),
so the affected collection is left unchanged but no user-facing error
message is displayed. -/
theorem failure_envelope_silent_for_loadFriends_removeFriend :
    (loadFriends (some "tok")
        (Transport.responds (Envelope.failure (some "boom")))
        sampleFriendsState).messages = [] ∧
    (removeFriend (some "tok") "dave"
        (Transport.responds (Envelope.failure (some "boom")))
        sampleFriendsState).messages = [] := by
  decide

/-- C4 amended: on a FAILURE envelope every operation leaves its
collection unchanged and terminates without an exception (the operations
are total functions), and `loadRequests`, `sendFriendRequest`,
`acceptRequest`, `declineRequest` display an error message taken from the
envelope data (or a generic one); `loadFriends` and `removeFriend`
display no message on a FAILURE envelope (only on a thrown transport
error). -/
theorem failure_envelope_leaves_state_unchanged
    (tok : String) (h : tok ≠ "") (d : Option String) (u a dn : String)
    (sF : FriendsPanelState) (sR : RequestsPanelState) :
    (loadFriends (some tok) (Transport.responds (Envelope.failure d)) sF).state.friends
      = sF.friends ∧
    (loadFriends (some tok) (Transport.responds (Envelope.failure d)) sF).messages = [] ∧
    (removeFriend (some tok) u (Transport.responds (Envelope.failure d)) sF).state = sF ∧
    (removeFriend (some tok) u (Transport.responds (Envelope.failure d)) sF).messages = [] ∧
    (loadRequests (some tok) (Transport.responds (Envelope.failure d)) sR).state.requests
      = sR.requests ∧
    (loadRequests (some tok) (Transport.responds (Envelope.failure d)) sR).messages
      = [Msg.error (jsTextOr d "Помилка завантаження запитів")] ∧
    (sendFriendRequest (some tok) u (Transport.responds (Envelope.failure d)) sR).state.requests
      = sR.requests ∧
    (sendFriendRequest (some tok) u (Transport.responds (Envelope.failure d)) sR).messages
      = [Msg.error (jsTextOr d "Помилка надсилання запиту")] ∧
    (acceptRequest (some tok) a (Transport.responds (Envelope.failure d)) sR).state = sR ∧
    (acceptRequest (some tok) a (Transport.responds (Envelope.failure d)) sR).messages
      = [Msg.error (jsTextOr d "Помилка прийняття запиту")] ∧
    (declineRequest (some tok) dn (Transport.responds (Envelope.failure d)) sR).state = sR ∧
    (declineRequest (some tok) dn (Transport.responds (Envelope.failure d)) sR).messages
      = [Msg.error (jsTextOr d "Помилка відхилення запиту")] := by
  simp [loadFriends, removeFriend, loadRequests, sendFriendRequest, acceptRequest,
    declineRequest, authenticatedApiCall, apiCall, h]

/-- C4 amended, witness at a concrete input. -/
theorem failure_envelope_witness :
    (acceptRequest (some "tok") "carol"
        (Transport.responds (Envelope.failure (some "boom")))
        sampleRequestsState).state = sampleRequestsState ∧
    (acceptRequest (some "tok") "carol"
        (Transport.responds (Envelope.failure (some "boom")))
        sampleRequestsState).messages = [Msg.error (jsTextOr (some "boom") "Помилка прийняття запиту")] := by
  have h := failure_envelope_leaves_state_unchanged "tok" (by decide)
    (some "boom") "bob" "carol" "carol" sampleFriendsState sampleRequestsState
  exact ⟨h.2.2.2.2.2.2.2.2.1, h.2.2.2.2.2.2.2.2.2.1⟩

/-- C5: each operation's local list mutation is a function of the resolved
outcome of its single remote call (the operations take that resolved
outcome as input, so no mutation can precede the resolution), and
whenever the outcome is not a SUCCESS envelope — a thrown transport error
or a FAILURE envelope — the collection is left exactly as it was, for any
token. -/
theorem mutation_only_after_success_envelope
    (tok : Option String) (u a dn : String)
    (sF : FriendsPanelState) (sR : RequestsPanelState)
    (tL : Transport (List Friend)) (tD tA tX : Transport Unit)
    (tQ : Transport (List FriendRequest)) (tS : Transport String) :
    (tL.isSuccessEnvelope = false → (loadFriends tok tL sF).state.friends = sF.friends) ∧
    (tD.isSuccessEnvelope = false → (removeFriend tok u tD sF).state.friends = sF.friends) ∧
    (tQ.isSuccessEnvelope = false → (loadRequests tok tQ sR).state.requests = sR.requests) ∧
    (tS.isSuccessEnvelope = false →
      (sendFriendRequest tok u tS sR).state.requests = sR.requests) ∧
    (tA.isSuccessEnvelope = false → (acceptRequest tok a tA sR).state.requests = sR.requests) ∧
    (tX.isSuccessEnvelope = false →
      (declineRequest tok dn tX sR).state.requests = sR.requests) := by
  rcases tok with _ | tk
  · exact ⟨fun _ => rfl, fun _ => rfl, fun _ => rfl, fun _ => rfl, fun _ => rfl, fun _ => rfl⟩
  by_cases htk : tk = ""
  · simp [loadFriends, removeFriend, loadRequests, sendFriendRequest, acceptRequest,
      declineRequest, htk]
  refine ⟨?_, ?_, ?_, ?_, ?_, ?_⟩ <;> intro hfail
  · rcases tL with _ | (pd | fd)
    · simp [loadFriends, htk, authenticatedApiCall, apiCall]
    · simp [Transport.isSuccessEnvelope] at hfail
    · simp [loadFriends, htk, authenticatedApiCall, apiCall]
  · rcases tD with _ | (pd | fd)
    · simp [removeFriend, htk, authenticatedApiCall, apiCall]
    · simp [Transport.isSuccessEnvelope] at hfail
    · simp [removeFriend, htk, authenticatedApiCall, apiCall]
  · rcases tQ with _ | (pd | fd)
    · simp [loadRequests, htk, authenticatedApiCall, apiCall]
    · simp [Transport.isSuccessEnvelope] at hfail
    · simp [loadRequests, htk, authenticatedApiCall, apiCall]
  · rcases tS with _ | (pd | fd)
    · simp [sendFriendRequest, htk, authenticatedApiCall, apiCall]
    · simp [Transport.isSuccessEnvelope] at hfail
    · simp [sendFriendRequest, htk, authenticatedApiCall, apiCall]
  · rcases tA with _ | (pd | fd)
    · simp [acceptRequest, htk, authenticatedApiCall, apiCall]
    · simp [Transport.isSuccessEnvelope] at hfail
    · simp [acceptRequest, htk, authenticatedApiCall, apiCall]
  · rcases tX with _ | (pd | fd)
    · simp [declineRequest, htk, authenticatedApiCall, apiCall]
    · simp [Transport.isSuccessEnvelope] at hfail
    · simp [declineRequest, htk, authenticatedApiCall, apiCall]

/-- C5, witness at a concrete input. -/
theorem mutation_only_after_success_witness :
    (loadFriends (some "tok") Transport.throws sampleFriendsState).state.friends
      = sampleFriendsState.friends ∧
    (declineRequest (some "tok") "carol"
        (Transport.responds (Envelope.failure none))
        sampleRequestsState).state.requests = sampleRequestsState.requests := by
  have h := mutation_only_after_success_envelope (some "tok") "bob" "carol" "carol"
    sampleFriendsState sampleRequestsState Transport.throws Transport.throws
    Transport.throws (Transport.responds (Envelope.failure none))
    Transport.throws Transport.throws
  exact ⟨h.1 rfl, h.2.2.2.2.2 rfl⟩

/-- C6: after an `acceptRequest` (resp. `declineRequest`) whose envelope
is SUCCESS, no entry with that sender identifier remains in the requests
list; after a `removeFriend` with SUCCESS, no entry with that username
remains in the friends list; and repeating the same operation with the
same identifier on the resulting state (again with SUCCESS) changes the
list no further — removal from the list is idempotent. -/
theorem accept_decline_remove_absence_and_idempotence
    (tok : String) (h : tok ≠ "") (a : String) (d1 d2 : Option Unit)
    (sF : FriendsPanelState) (sR : RequestsPanelState) :
    (∀ r ∈ (acceptRequest (some tok) a (Transport.responds (Envelope.success d1))
        sR).state.requests, r.senderName ≠ a) ∧
    (acceptRequest (some tok) a (Transport.responds (Envelope.success d2))
        ((acceptRequest (some tok) a (Transport.responds (Envelope.success d1))
          sR).state)).state.requests
      = (acceptRequest (some tok) a (Transport.responds (Envelope.success d1))
          sR).state.requests ∧
    (∀ r ∈ (declineRequest (some tok) a (Transport.responds (Envelope.success d1))
        sR).state.requests, r.senderName ≠ a) ∧
    (declineRequest (some tok) a (Transport.responds (Envelope.success d2))
        ((declineRequest (some tok) a (Transport.responds (Envelope.success d1))
          sR).state)).state.requests
      = (declineRequest (some tok) a (Transport.responds (Envelope.success d1))
          sR).state.requests ∧
    (∀ f ∈ (removeFriend (some tok) a (Transport.responds (Envelope.success d1))
        sF).state.friends, f.username ≠ a) ∧
    (removeFriend (some tok) a (Transport.responds (Envelope.success d2))
        ((removeFriend (some tok) a (Transport.responds (Envelope.success d1))
          sF).state)).state.friends
      = (removeFriend (some tok) a (Transport.responds (Envelope.success d1))
          sF).state.friends := by
  refine ⟨?_, ?_, ?_, ?_, ?_, ?_⟩
  · intro r hr
    simp [acceptRequest, authenticatedApiCall, apiCall, h, List.mem_filter] at hr
    exact hr.2
  · simp [acceptRequest, authenticatedApiCall, apiCall, h, List.filter_filter]
  · intro r hr
    simp [declineRequest, authenticatedApiCall, apiCall, h, List.mem_filter] at hr
    exact hr.2
  · simp [declineRequest, authenticatedApiCall, apiCall, h, List.filter_filter]
  · intro f hf
    simp [removeFriend, authenticatedApiCall, apiCall, h, List.mem_filter] at hf
    exact hf.2
  · simp [removeFriend, authenticatedApiCall, apiCall, h, List.filter_filter]

/-- C6, witness at a concrete input (scenario C of the spec:
`pendingRequests = [{carol}]`, accept "carol" with SUCCESS). -/
theorem accept_decline_remove_witness :
    (∀ r ∈ (acceptRequest (some "tok") "carol"
        (Transport.responds (Envelope.success none))
        sampleRequestsState).state.requests, r.senderName ≠ "carol") ∧
    (removeFriend (some "tok") "carol" (Transport.responds (Envelope.success none))
        ((removeFriend (some "tok") "carol" (Transport.responds (Envelope.success none))
          sampleFriendsState).state)).state.friends
      = (removeFriend (some "tok") "carol" (Transport.responds (Envelope.success none))
          sampleFriendsState).state.friends := by
  have h := accept_decline_remove_absence_and_idempotence "tok" (by decide) "carol"
    none none sampleFriendsState sampleRequestsState
  exact ⟨h.1, h.2.2.2.2.2⟩

/-- C7 counterexample: `login ""` persists the empty string, and a fresh
instance's `restore` treats the stored empty string as falsy, yielding
`isLoggedIn = false` and no token — so the round trip fails for the
token `""`, refuting the claim's 'for every token t'. -/
theorem login_empty_restore_round_trip_fails :
    (restore AuthState.init (login "").2).isLoggedIn = false ∧
    (restore AuthState.init (login "").2).token ≠ some "" := by
  decide

/-- C7 amended: for every non-empty token `t`, `login t` followed by
`restore` in a fresh instance yields a logged-in state with the same
token `t`; `logout` followed by `restore` in a fresh instance yields the
logged-out initial state; for `t = ""` the restore finds a falsy stored
value and stays logged out. -/
theorem login_restore_round_trip (t : String) (h : t ≠ "") :
    restore AuthState.init (login t).2 = ⟨some t, true⟩ ∧
    restore AuthState.init logout.2 = AuthState.init ∧
    (restore AuthState.init logout.2).isLoggedIn = false ∧
    (restore AuthState.init (login "").2).isLoggedIn = false := by
  refine ⟨?_, rfl, rfl, rfl⟩
  simp [restore, login, h]

/-- C7 amended, witness at a concrete input (scenario A's token). -/
theorem login_restore_round_trip_witness :
    restore AuthState.init (login "abc123").2 = ⟨some "abc123", true⟩ :=
  (login_restore_round_trip "abc123" (by decide)).1

/-- C8: every relationship operation invoked while the Session Store has
no token (token is `null`) returns without issuing the remote call
(`requestIssued = false`), leaves the component state — in particular the
`friends` and `requests` collections — entirely unchanged, and emits no
message, for every possible transport behaviour. -/
theorem no_token_skips_call_and_preserves_state
    (u a dn : String) (sF : FriendsPanelState) (sR : RequestsPanelState)
    (tL : Transport (List Friend)) (tD tA tX : Transport Unit)
    (tQ : Transport (List FriendRequest)) (tS : Transport String) :
    loadFriends none tL sF = ⟨sF, [], false⟩ ∧
    removeFriend none u tD sF = ⟨sF, [], false⟩ ∧
    loadRequests none tQ sR = ⟨sR, [], false⟩ ∧
    sendFriendRequest none u tS sR = ⟨sR, [], false⟩ ∧
    acceptRequest none a tA sR = ⟨sR, [], false⟩ ∧
    declineRequest none dn tX sR = ⟨sR, [], false⟩ :=
  ⟨rfl, rfl, rfl, rfl, rfl, rfl⟩

/-- C9: a `sendFriendRequest` whose envelope is SUCCESS leaves the
requests list untouched (and touches no friends list: the operation acts
only on the FriendRequestsPanel state, whose only list is `requests`) and
resets the input form; on a FAILURE envelope it surfaces the error text
from the envelope data, falling back to the generic message when that
text is absent (null or empty). -/
theorem sendRequest_frame_and_messages
    (tok : String) (h : tok ≠ "") (u : String) (p d : Option String)
    (sR : RequestsPanelState) :
    (sendFriendRequest (some tok) u (Transport.responds (Envelope.success p)) sR).state
      = { sR with sendingRequest := false, formUsername := none } ∧
    (sendFriendRequest (some tok) u (Transport.responds (Envelope.success p)) sR).state.requests
      = sR.requests ∧
    (sendFriendRequest (some tok) u (Transport.responds (Envelope.success p))
        sR).state.formUsername = none ∧
    (sendFriendRequest (some tok) u (Transport.responds (Envelope.failure d)) sR).state
      = { sR with sendingRequest := false } ∧
    (sendFriendRequest (some tok) u (Transport.responds (Envelope.failure d)) sR).messages
      = [Msg.error (jsTextOr d "Помилка надсилання запиту")] ∧
    jsTextOr none "Помилка надсилання запиту" = "Помилка надсилання запиту" ∧
    jsTextOr (some "") "Помилка надсилання запиту" = "Помилка надсилання запиту" ∧
    (∀ m : String, m ≠ "" → jsTextOr (some m) "Помилка надсилання запиту" = m) := by
  refine ⟨?_, ?_, ?_, ?_, ?_, rfl, rfl, fun m hm => by simp [jsTextOr, hm]⟩ <;>
    simp [sendFriendRequest, authenticatedApiCall, apiCall, jsTextOr, h]

/-- C9, witness at a concrete input (scenario B: send to "bob"
succeeds). -/
theorem sendRequest_frame_witness :
    (sendFriendRequest (some "tok") "bob" (Transport.responds (Envelope.success none))
        sampleRequestsState).state.requests = sampleRequestsState.requests ∧
    (sendFriendRequest (some "tok") "bob" (Transport.responds (Envelope.success none))
        sampleRequestsState).state.formUsername = none := by
  have h := sendRequest_frame_and_messages "tok" (by decide) "bob" none none
    sampleRequestsState
  exact ⟨h.2.1, h.2.2.1⟩

/-- C10: the reconciliations on SUCCESS are exactly list filters: for
every pre-state — including one already holding duplicate identifiers —
`removeFriend` removes every entry whose `username` equals the given
identifier from `friends`, and `acceptRequest` / `declineRequest` remove
every entry whose `senderName` equals it from `requests`, not merely the
first match. -/
theorem removal_filters_every_match
    (tok : String) (h : tok ≠ "") (id : String) (d1 d2 d3 : Option Unit)
    (sF : FriendsPanelState) (sR : RequestsPanelState) :
    (removeFriend (some tok) id (Transport.responds (Envelope.success d1)) sF).state.friends
      = sF.friends.filter (fun f => f.username ≠ id) ∧
    (acceptRequest (some tok) id (Transport.responds (Envelope.success d2)) sR).state.requests
      = sR.requests.filter (fun r => r.senderName ≠ id) ∧
    (declineRequest (some tok) id (Transport.responds (Envelope.success d3)) sR).state.requests
      = sR.requests.filter (fun r => r.senderName ≠ id) ∧
    (∀ f ∈ (removeFriend (some tok) id (Transport.responds (Envelope.success d1))
        sF).state.friends, f.username ≠ id) := by
  refine ⟨?_, ?_, ?_, ?_⟩
  · simp [removeFriend, authenticatedApiCall, apiCall, h]
  · simp [acceptRequest, authenticatedApiCall, apiCall, h]
  · simp [declineRequest, authenticatedApiCall, apiCall, h]
  · intro f hf
    simp [removeFriend, authenticatedApiCall, apiCall, h, List.mem_filter] at hf
    exact hf.2

/-- C10, witness at a pre-state that already contains two entries with
the duplicate username "anna": both are removed. -/
theorem removal_filters_witness :
    (removeFriend (some "tok") "anna" (Transport.responds (Envelope.success none))
        (FriendsPanelState.mk [fAnna, Friend.mk "anna" (some "x"), fDave]
          false)).state.friends
      = ([fAnna, Friend.mk "anna" (some "x"), fDave].filter
          (fun f => f.username ≠ "anna")) :=
  (removal_filters_every_match "tok" (by decide) "anna" none none none
    (FriendsPanelState.mk [fAnna, Friend.mk "anna" (some "x"), fDave] false)
    sampleRequestsState).1

end RequestSystemFront
